import Mathlib

/-!
Shallow embedding of the AutopilotMeteor simulation core
(`src/spaceship_game.py`, with the tracker variant in `src/tracking.py`).
Python floats are modelled as real numbers; `math.hypot` as
`Real.sqrt (x ^ 2 + y ^ 2)`.  The per-frame mutation of the spaceship,
meteors and tracker is modelled by explicit state passing.
-/

namespace AutopilotMeteor

open Classical

noncomputable section

/-- `math.hypot(x, y)` — the Euclidean norm of the pair. -/
def hypot (x y : ℝ) : ℝ := Real.sqrt (x ^ 2 + y ^ 2)

/-- Constant `WIDTH = 800` from `spaceship_game.py`. -/
def WIDTH : ℝ := 800

/-- Constant `HEIGHT = 600`. -/
def HEIGHT : ℝ := 600

/-- Constant `SPACESHIP_SIZE = 10`. -/
def SPACESHIP_SIZE : ℝ := 10

/-- Constant `METEOR_SIZE = 25`. -/
def METEOR_SIZE : ℝ := 25

/-- Constant `MAX_SPEED = 5`. -/
def MAX_SPEED : ℝ := 5

/-- Constant `DETECTION_RADIUS = 110`. -/
def DETECTION_RADIUS : ℝ := 110

/-- Constant `AVOIDANCE_STRENGTH = 0.5`. -/
def AVOIDANCE_STRENGTH : ℝ := 0.5

/-- Constant `CENTERING_STRENGTH = 0.1`. -/
def CENTERING_STRENGTH : ℝ := 0.1

/-- Class `Meteor`: position and velocity (the random spawn parameters of
`Meteor.__init__` are external inputs; a meteor state is the four numbers). -/
structure Meteor where
  x : ℝ
  y : ℝ
  velocity_x : ℝ
  velocity_y : ℝ

/-- Class `Spaceship`: position, velocity and the drawing angle. -/
structure Spaceship where
  x : ℝ
  y : ℝ
  velocity_x : ℝ
  velocity_y : ℝ
  angle : ℝ

/-- `Spaceship.__init__`: centered at `(WIDTH // 2, HEIGHT // 2)`, at rest. -/
def Spaceship.init : Spaceship :=
  { x := WIDTH / 2, y := HEIGHT / 2, velocity_x := 0, velocity_y := 0, angle := 0 }

/-- `math.hypot(spaceship.x - meteor.x, spaceship.y - meteor.y)` as computed in
`track_frame`, `avoid_meteors` and the collision scan of `main`. -/
def shipMeteorDist (s : Spaceship) (m : Meteor) : ℝ :=
  hypot (s.x - m.x) (s.y - m.y)

end

/-! ### Basic facts about `hypot` -/

theorem hypot_nonneg (x y : ℝ) : 0 ≤ hypot x y := Real.sqrt_nonneg _

theorem hypot_eq_zero_iff (x y : ℝ) : hypot x y = 0 ↔ x = 0 ∧ y = 0 := by
  rw [hypot, Real.sqrt_eq_zero']
  constructor
  · rintro h
    have hx := sq_nonneg x
    have hy := sq_nonneg y
    constructor
    · have : x ^ 2 = 0 := by nlinarith
      exact pow_eq_zero_iff (n := 2) (by norm_num) |>.mp this
    · have : y ^ 2 = 0 := by nlinarith
      exact pow_eq_zero_iff (n := 2) (by norm_num) |>.mp this
  · rintro ⟨hx, hy⟩
    simp [hx, hy]

theorem hypot_pos_of_ne (x y : ℝ) (h : ¬(x = 0 ∧ y = 0)) : 0 < hypot x y := by
  rcases lt_or_eq_of_le (hypot_nonneg x y) with h1 | h1
  · exact h1
  · exact absurd ((hypot_eq_zero_iff x y).mp h1.symm) h

theorem hypot_zero : hypot 0 0 = 0 := by
  simp [hypot]

theorem hypot_mul (c x y : ℝ) : hypot (c * x) (c * y) = |c| * hypot x y := by
  rw [hypot, hypot, show (c * x) ^ 2 + (c * y) ^ 2 = c ^ 2 * (x ^ 2 + y ^ 2) by ring,
    Real.sqrt_mul (sq_nonneg c), Real.sqrt_sq_eq_abs]

theorem hypot_x_zero (x : ℝ) : hypot x 0 = |x| := by
  rw [hypot]
  simp [Real.sqrt_sq_eq_abs]

/-- Rescaling a non-zero vector to magnitude `M ≥ 0` the way the source does
(`v / length * M` componentwise) yields a vector of magnitude exactly `M`. -/
theorem hypot_rescale (x y M : ℝ) (hM : 0 ≤ M) (hL : 0 < hypot x y) :
    hypot (x / hypot x y * M) (y / hypot x y * M) = M := by
  have h1 : x / hypot x y * M = M / hypot x y * x := by ring
  have h2 : y / hypot x y * M = M / hypot x y * y := by ring
  rw [h1, h2, hypot_mul, abs_of_nonneg (div_nonneg hM hL.le),
    div_mul_cancel₀ _ (ne_of_gt hL)]

/-! ### The Autopilot update (`Spaceship.avoid_meteors`) -/

noncomputable section

/-- One iteration of the threat-scan loop of `avoid_meteors`: accumulate the
unit vector away from a meteor that lies within `DETECTION_RADIUS` at positive
distance, and raise the `in_danger` flag. -/
def threatStep (s : Spaceship) (acc : (ℝ × ℝ) × Bool) (m : Meteor) : (ℝ × ℝ) × Bool :=
  let distance := shipMeteorDist s m
  if distance < DETECTION_RADIUS ∧ distance > 0 then
    ((acc.1.1 + (s.x - m.x) / distance, acc.1.2 + (s.y - m.y) / distance), true)
  else acc

/-- The threat-scan loop of `avoid_meteors` over the whole meteor list,
starting from `avoidance_vector = [0, 0]`, `in_danger = False`. -/
def threatScan (s : Spaceship) (ms : List Meteor) : (ℝ × ℝ) × Bool :=
  ms.foldl (threatStep s) ((0, 0), false)

/-- The `Normalize and apply avoidance` block of `avoid_meteors`: add the
normalized accumulated vector times `AVOIDANCE_STRENGTH` when its length is
positive, else leave the velocity alone. -/
def applyAvoidance (v : ℝ × ℝ) (av : ℝ × ℝ) : ℝ × ℝ :=
  let length := hypot av.1 av.2
  if length > 0 then
    (v.1 + av.1 / length * AVOIDANCE_STRENGTH, v.2 + av.2 / length * AVOIDANCE_STRENGTH)
  else v

/-- The `move towards the center` block of `avoid_meteors`: add the unit vector
toward `(WIDTH / 2, HEIGHT / 2)` times `CENTERING_STRENGTH`; the normalization
is guarded by `norm != 0`. -/
def applyCentering (s : Spaceship) (v : ℝ × ℝ) : ℝ × ℝ :=
  let dx := WIDTH / 2 - s.x
  let dy := HEIGHT / 2 - s.y
  let norm := hypot dx dy
  let dx' := if norm ≠ 0 then dx / norm else dx
  let dy' := if norm ≠ 0 then dy / norm else dy
  (v.1 + dx' * CENTERING_STRENGTH, v.2 + dy' * CENTERING_STRENGTH)

/-- The craft's velocity after the avoidance and centering blocks of
`avoid_meteors`, before the `Limit speed` block: avoidance is applied first,
then centering exactly when `in_danger` is false. -/
def preLimitVelocity (s : Spaceship) (ms : List Meteor) : ℝ × ℝ :=
  let scan := threatScan s ms
  let v1 := applyAvoidance (s.velocity_x, s.velocity_y) scan.1
  if scan.2 then v1 else applyCentering s v1

/-- The `Limit speed` block of `avoid_meteors`: rescale to `MAX_SPEED` when the
magnitude exceeds it. -/
def limitSpeed (v : ℝ × ℝ) : ℝ × ℝ :=
  let speed := hypot v.1 v.2
  if speed > MAX_SPEED then (v.1 / speed * MAX_SPEED, v.2 / speed * MAX_SPEED) else v

/-- `math.atan2(y, x)` modelled by the argument of the complex number
`x + y·i`. -/
def atan2 (y x : ℝ) : ℝ := Complex.arg ⟨x, y⟩

/-- `math.degrees`. -/
def degrees (r : ℝ) : ℝ := r * 180 / Real.pi

/-- `Spaceship.avoid_meteors`: threat scan, avoidance, centering, speed limit,
angle update, position integration, and clamping into the screen bounds. -/
def avoid_meteors (s : Spaceship) (ms : List Meteor) : Spaceship :=
  let v := limitSpeed (preLimitVelocity s ms)
  let angle := if v.1 ≠ 0 ∨ v.2 ≠ 0 then degrees (atan2 (-v.2) v.1) else s.angle
  { x := max SPACESHIP_SIZE (min (WIDTH - SPACESHIP_SIZE) (s.x + v.1))
    y := max SPACESHIP_SIZE (min (HEIGHT - SPACESHIP_SIZE) (s.y + v.2))
    velocity_x := v.1
    velocity_y := v.2
    angle := angle }

end

/-! ### The tracker (`GameTracker`) and the analytics report -/

noncomputable section

/-- Dataclass `NearMissEvent`. -/
structure NearMissEvent where
  timestamp : ℝ
  distance : ℝ
  ship_position : ℝ × ℝ
  meteor_position : ℝ × ℝ
  ship_velocity : ℝ × ℝ
  meteor_velocity : ℝ × ℝ

/-- Class `GameTracker`: the time origin, the ordered event list and the two
thresholds set in `__init__`. -/
structure GameTracker where
  start_time : ℝ
  near_misses : List NearMissEvent
  danger_threshold : ℝ
  critical_threshold : ℝ

/-- `GameTracker.__init__`: empty event list, `danger_threshold = 50`,
`critical_threshold = 35`; `start_time` is the external clock reading. -/
def GameTracker.init (start_time : ℝ) : GameTracker :=
  { start_time := start_time, near_misses := [], danger_threshold := 50,
    critical_threshold := 35 }

/-- The `NearMissEvent` record as built inside `track_frame` for one meteor. -/
def mkNearMiss (current_time : ℝ) (s : Spaceship) (m : Meteor) : NearMissEvent :=
  { timestamp := current_time
    distance := shipMeteorDist s m
    ship_position := (s.x, s.y)
    meteor_position := (m.x, m.y)
    ship_velocity := (s.velocity_x, s.velocity_y)
    meteor_velocity := (m.velocity_x, m.velocity_y) }

/-- One iteration of the `track_frame` loop: append a `NearMissEvent` when
`distance < danger_threshold and distance > SPACESHIP_SIZE + METEOR_SIZE`. -/
def trackStep (s : Spaceship) (current_time : ℝ) (tr : GameTracker) (m : Meteor) :
    GameTracker :=
  let distance := shipMeteorDist s m
  if distance < tr.danger_threshold ∧ distance > SPACESHIP_SIZE + METEOR_SIZE then
    { tr with near_misses := tr.near_misses ++ [mkNearMiss current_time s m] }
  else tr

/-- `GameTracker.track_frame`: `current_time = time.time() - self.start_time`
(`now` is the external clock reading), then the loop over the meteors. -/
def track_frame (t : GameTracker) (now : ℝ) (s : Spaceship) (ms : List Meteor) :
    GameTracker :=
  ms.foldl (trackStep s (now - t.start_time)) t

/-- One serialized entry of the `near_misses` list of the analytics JSON. -/
structure SerializedNearMiss where
  timestamp : ℝ
  distance : ℝ
  ship_position : ℝ × ℝ
  meteor_position : ℝ × ℝ
  ship_velocity : ℝ × ℝ
  meteor_velocity : ℝ × ℝ
  severity : String

/-- The analytics JSON object built by `save_analytics`. -/
structure Analytics where
  total_runtime : ℝ
  total_near_misses : ℕ
  near_misses : List SerializedNearMiss

/-- One entry of the `near_misses` comprehension of `save_analytics`:
severity is `CRITICAL` when `event.distance < self.critical_threshold`,
else `WARNING`. -/
def serializeEvent (t : GameTracker) (e : NearMissEvent) : SerializedNearMiss :=
  { timestamp := e.timestamp
    distance := e.distance
    ship_position := e.ship_position
    meteor_position := e.meteor_position
    ship_velocity := e.ship_velocity
    meteor_velocity := e.meteor_velocity
    severity := if e.distance < t.critical_threshold then "CRITICAL" else "WARNING" }

/-- `GameTracker.save_analytics` (the report object; the file write is an
external collaborator).  The method reads `self` and assigns nothing to it, so
its embedding returns the report together with the unchanged post-state of the
tracker; `now` is the external clock reading used for `total_runtime`. -/
def save_analytics (t : GameTracker) (now : ℝ) : Analytics × GameTracker :=
  ({ total_runtime := now - t.start_time
     total_near_misses := t.near_misses.length
     near_misses := t.near_misses.map (serializeEvent t) }, t)

/-! ### Meteor lifecycle and the per-tick loop body of `main` -/

/-- `Meteor.update`: straight-line drift, no clamping. -/
def Meteor.update (m : Meteor) : Meteor :=
  { m with x := m.x + m.velocity_x, y := m.y + m.velocity_y }

/-- The removal predicate of the `Remove off-screen meteors` block of `main`. -/
def offscreen (m : Meteor) : Prop :=
  m.x < -METEOR_SIZE ∨ m.x > WIDTH + METEOR_SIZE ∨
    m.y < -METEOR_SIZE ∨ m.y > HEIGHT + METEOR_SIZE

/-- The `Update and draw meteors` loop of `main`: every meteor advances one
step, and those whose new position is off screen are removed from the list
(order preserved). -/
def updateMeteors (ms : List Meteor) : List Meteor :=
  (ms.map Meteor.update).filter (fun m => decide (¬ offscreen m))

/-- The `Collision detection` scan of `main`: some live meteor is strictly
closer than `SPACESHIP_SIZE + METEOR_SIZE`; it sets `running = False`. -/
def collisionDetected (s : Spaceship) (ms : List Meteor) : Prop :=
  ∃ m ∈ ms, shipMeteorDist s m < SPACESHIP_SIZE + METEOR_SIZE

/-- The mutable state of `main`'s loop. -/
structure GameState where
  spaceship : Spaceship
  meteors : List Meteor
  tracker : GameTracker
  running : Bool

/-- One iteration of the `while running` loop of `main` (rendering, score and
event handling aside): probabilistic spawn (the Bernoulli draw is the external
input `spawn`), meteor update and culling, `avoid_meteors`, `track_frame`, and
the collision scan that ends the run. -/
def tick (g : GameState) (spawn : Option Meteor) (now : ℝ) : GameState :=
  let ms := updateMeteors (g.meteors ++ spawn.toList)
  let s := avoid_meteors g.spaceship ms
  let tr := track_frame g.tracker now s ms
  { spaceship := s, meteors := ms, tracker := tr,
    running := g.running && !decide (collisionDetected s ms) }

end

/-! ### Characterization of the threat scan -/

/-- The condition under which one meteor contributes to the avoidance vector
and raises `in_danger`. -/
def isThreat (s : Spaceship) (m : Meteor) : Prop :=
  shipMeteorDist s m < DETECTION_RADIUS ∧ shipMeteorDist s m > 0

theorem threatStep_of_threat (s : Spaceship) (acc : (ℝ × ℝ) × Bool) (m : Meteor)
    (h : isThreat s m) :
    threatStep s acc m =
      ((acc.1.1 + (s.x - m.x) / shipMeteorDist s m,
        acc.1.2 + (s.y - m.y) / shipMeteorDist s m), true) := by
  rw [threatStep]
  exact if_pos h

theorem threatStep_of_not_threat (s : Spaceship) (acc : (ℝ × ℝ) × Bool) (m : Meteor)
    (h : ¬ isThreat s m) : threatStep s acc m = acc := by
  rw [threatStep]
  exact if_neg h

theorem foldl_threatStep_snd (s : Spaceship) (ms : List Meteor) :
    ∀ acc : (ℝ × ℝ) × Bool,
      (ms.foldl (threatStep s) acc).2 = (acc.2 || decide (∃ m ∈ ms, isThreat s m)) := by
  induction ms with
  | nil => intro acc; simp
  | cons a ms ih =>
    intro acc
    rw [List.foldl_cons, ih]
    by_cases h : isThreat s a
    · rw [threatStep_of_threat s acc a h]
      simp [h]
    · rw [threatStep_of_not_threat s acc a h]
      have : (∃ m ∈ ms, isThreat s m) ↔ ∃ m ∈ a :: ms, isThreat s m := by
        constructor
        · rintro ⟨m, hm, hth⟩; exact ⟨m, List.mem_cons_of_mem a hm, hth⟩
        · rintro ⟨m, hm, hth⟩
          rcases List.mem_cons.mp hm with rfl | hm
          · exact absurd hth h
          · exact ⟨m, hm, hth⟩
      rw [decide_eq_decide.mpr this]

theorem foldl_threatStep_of_no_threat (s : Spaceship) (ms : List Meteor)
    (h : ∀ m ∈ ms, ¬ isThreat s m) :
    ∀ acc : (ℝ × ℝ) × Bool, ms.foldl (threatStep s) acc = acc := by
  induction ms with
  | nil => intro acc; simp
  | cons a ms ih =>
    intro acc
    rw [List.foldl_cons, threatStep_of_not_threat s acc a (h a (List.mem_cons_self a ms))]
    exact ih (fun m hm => h m (List.mem_cons_of_mem a hm)) acc

theorem threatScan_snd_true_iff (s : Spaceship) (ms : List Meteor) :
    (threatScan s ms).2 = true ↔ ∃ m ∈ ms, isThreat s m := by
  rw [threatScan, foldl_threatStep_snd]
  simp

theorem threatScan_snd_false_iff (s : Spaceship) (ms : List Meteor) :
    (threatScan s ms).2 = false ↔ ∀ m ∈ ms, ¬ isThreat s m := by
  rw [threatScan, foldl_threatStep_snd]
  simp

theorem threatScan_of_no_threat (s : Spaceship) (ms : List Meteor)
    (h : ∀ m ∈ ms, ¬ isThreat s m) : threatScan s ms = ((0, 0), false) :=
  foldl_threatStep_of_no_threat s ms h ((0, 0), false)

/-! ### Characterization of the tracking scan -/

/-- The emission condition of `track_frame`, as the source orders it. -/
def emits (t : GameTracker) (s : Spaceship) (m : Meteor) : Prop :=
  shipMeteorDist s m < t.danger_threshold ∧
    shipMeteorDist s m > SPACESHIP_SIZE + METEOR_SIZE

/-- The events one pass of the `track_frame` loop appends, in meteor order. -/
noncomputable def emittedEvents (t : GameTracker) (c : ℝ) (s : Spaceship)
    (ms : List Meteor) : List NearMissEvent :=
  ms.filterMap fun m => if emits t s m then some (mkNearMiss c s m) else none

theorem foldl_trackStep (s : Spaceship) (c : ℝ) (ms : List Meteor) :
    ∀ tr : GameTracker,
      ms.foldl (trackStep s c) tr =
        { tr with near_misses := tr.near_misses ++ emittedEvents tr c s ms } := by
  induction ms with
  | nil => intro tr; simp [emittedEvents]
  | cons a ms ih =>
    intro tr
    rw [List.foldl_cons]
    by_cases h : emits tr s a
    · have hstep : trackStep s c tr a =
          { tr with near_misses := tr.near_misses ++ [mkNearMiss c s a] } := by
        rw [trackStep]
        exact if_pos h
      rw [hstep, ih]
      simp only [emittedEvents, List.filterMap_cons, if_pos h, List.append_assoc,
        List.singleton_append]
      rfl
    · have hstep : trackStep s c tr a = tr := by
        rw [trackStep]
        exact if_neg h
      rw [hstep, ih]
      simp only [emittedEvents, List.filterMap_cons, if_neg h]

theorem track_frame_near_misses (t : GameTracker) (now : ℝ) (s : Spaceship)
    (ms : List Meteor) :
    (track_frame t now s ms).near_misses =
      t.near_misses ++ emittedEvents t (now - t.start_time) s ms := by
  rw [track_frame, foldl_trackStep]

theorem track_frame_fields (t : GameTracker) (now : ℝ) (s : Spaceship)
    (ms : List Meteor) :
    (track_frame t now s ms).start_time = t.start_time ∧
      (track_frame t now s ms).danger_threshold = t.danger_threshold ∧
      (track_frame t now s ms).critical_threshold = t.critical_threshold := by
  rw [track_frame, foldl_trackStep]
  exact ⟨rfl, rfl, rfl⟩

theorem mem_emittedEvents (t : GameTracker) (c : ℝ) (s : Spaceship)
    (ms : List Meteor) (e : NearMissEvent) :
    e ∈ emittedEvents t c s ms ↔ ∃ m ∈ ms, emits t s m ∧ e = mkNearMiss c s m := by
  rw [emittedEvents]
  simp only [List.mem_filterMap]
  constructor
  · rintro ⟨m, hm, hsome⟩
    by_cases h : emits t s m
    · rw [if_pos h] at hsome
      exact ⟨m, hm, h, (Option.some_injective _ hsome).symm⟩
    · rw [if_neg h] at hsome
      exact absurd hsome (Option.noConfusion)
  · rintro ⟨m, hm, h, rfl⟩
    exact ⟨m, hm, by rw [if_pos h]⟩

/-! ### Concrete test fixtures -/

/-- A meteor at rest, horizontally `d` to the right of the field center (where
`Spaceship.__init__` places the craft), so the craft-meteor distance is `d`
for `d ≥ 0`. -/
noncomputable def meteorAtOffset (d : ℝ) : Meteor :=
  { x := WIDTH / 2 + d, y := HEIGHT / 2, velocity_x := 0, velocity_y := 0 }

theorem dist_meteorAtOffset (d : ℝ) (hd : 0 ≤ d) :
    shipMeteorDist Spaceship.init (meteorAtOffset d) = d := by
  have h1 : Spaceship.init.x - (meteorAtOffset d).x = -d := by
    simp [Spaceship.init, meteorAtOffset]
  have h2 : Spaceship.init.y - (meteorAtOffset d).y = 0 := by
    simp [Spaceship.init, meteorAtOffset]
  rw [shipMeteorDist, h1, h2, hypot_x_zero, abs_neg, abs_of_nonneg hd]

/-! ### Claim theorems -/

/-- C1: per tick and per live meteor, `track_frame` emits a `NearMissEvent`
for the pair exactly when the craft-meteor distance lies strictly between the
collision radius sum `SPACESHIP_SIZE + METEOR_SIZE` and the danger threshold,
and the serialized severity is `CRITICAL` exactly when the recorded distance is
strictly below the critical threshold and `WARNING` otherwise. -/
theorem near_miss_emission_and_severity (t : GameTracker) (now : ℝ) (s : Spaceship)
    (ms : List Meteor) :
    ((track_frame t now s ms).near_misses =
      t.near_misses ++ ms.filterMap (fun m =>
        if SPACESHIP_SIZE + METEOR_SIZE < shipMeteorDist s m ∧
            shipMeteorDist s m < t.danger_threshold
        then some (mkNearMiss (now - t.start_time) s m) else none))
    ∧ ∀ e : NearMissEvent,
        ((serializeEvent t e).severity = "CRITICAL" ↔ e.distance < t.critical_threshold)
        ∧ ((serializeEvent t e).severity = "WARNING" ↔
            ¬ e.distance < t.critical_threshold) := by
  constructor
  · rw [track_frame_near_misses, emittedEvents]
    have hfun : (fun m => if emits t s m then some (mkNearMiss (now - t.start_time) s m)
          else none) =
        (fun m : Meteor => if SPACESHIP_SIZE + METEOR_SIZE < shipMeteorDist s m ∧
              shipMeteorDist s m < t.danger_threshold
          then some (mkNearMiss (now - t.start_time) s m) else none) := by
      funext m
      refine if_congr ?_ rfl rfl
      unfold emits
      exact ⟨fun h => ⟨h.2, h.1⟩, fun h => ⟨h.2, h.1⟩⟩
    rw [hfun]
  · intro e
    have hser : (serializeEvent t e).severity =
        if e.distance < t.critical_threshold then "CRITICAL" else "WARNING" := rfl
    rw [hser]
    by_cases h : e.distance < t.critical_threshold
    · rw [if_pos h]
      exact ⟨⟨fun _ => h, fun _ => rfl⟩,
        ⟨fun hw => absurd hw (by decide), fun hn => absurd h hn⟩⟩
    · rw [if_neg h]
      exact ⟨⟨fun hw => absurd hw (by decide), fun hc => absurd hc h⟩,
        ⟨fun _ => h, fun _ => rfl⟩⟩

/-- C2 counterexample: with the default thresholds, a meteor at distance
`critical_threshold - ε` for `ε = 0.5` (that is, at distance `34.5`) generates
NO event at all — in particular no CRITICAL event — because the emission
condition requires the distance to exceed `SPACESHIP_SIZE + METEOR_SIZE = 35`,
which equals the critical threshold. -/
theorem critical_band_empty_cex :
    (track_frame (GameTracker.init 0) 0 Spaceship.init
      [meteorAtOffset 34.5]).near_misses = [] := by
  have hd : shipMeteorDist Spaceship.init (meteorAtOffset 34.5) = 34.5 :=
    dist_meteorAtOffset 34.5 (by norm_num)
  have hnot : ¬ emits (GameTracker.init 0) Spaceship.init (meteorAtOffset 34.5) := by
    rw [emits, hd]
    rintro ⟨-, hgt⟩
    rw [show SPACESHIP_SIZE + METEOR_SIZE = (35:ℝ) by
      norm_num [SPACESHIP_SIZE, METEOR_SIZE]] at hgt
    norm_num at hgt
  rw [track_frame_near_misses, emittedEvents,
    show (GameTracker.init 0).near_misses = [] from rfl]
  simp [hnot]

/-- C2 (amended): with the default thresholds, a meteor at distance
`danger_threshold - ε` (for `0 < ε < 15`) generates exactly one event and its
serialized severity is `WARNING`; one at `danger_threshold + ε` generates no
event; and one at `critical_threshold - ε` also generates NO event, because the
critical threshold coincides with the collision radius sum
`SPACESHIP_SIZE + METEOR_SIZE = 35` and emission requires a distance strictly
above that sum. -/
theorem near_miss_boundary_amended (ε : ℝ) (h0 : 0 < ε) (h15 : ε < 15) :
    ((save_analytics (track_frame (GameTracker.init 0) 0 Spaceship.init
        [meteorAtOffset (50 - ε)]) 0).1.near_misses.map SerializedNearMiss.severity
      = ["WARNING"])
    ∧ (track_frame (GameTracker.init 0) 0 Spaceship.init
        [meteorAtOffset (50 + ε)]).near_misses = []
    ∧ (ε ≤ 35 → (track_frame (GameTracker.init 0) 0 Spaceship.init
        [meteorAtOffset (35 - ε)]).near_misses = []) := by
  have hsum : SPACESHIP_SIZE + METEOR_SIZE = (35:ℝ) := by
    norm_num [SPACESHIP_SIZE, METEOR_SIZE]
  refine ⟨?_, ?_, ?_⟩
  · have hd : shipMeteorDist Spaceship.init (meteorAtOffset (50 - ε)) = 50 - ε :=
      dist_meteorAtOffset _ (by linarith)
    have hem : emits (GameTracker.init 0) Spaceship.init (meteorAtOffset (50 - ε)) := by
      rw [emits, hd]
      constructor
      · rw [show (GameTracker.init 0).danger_threshold = (50:ℝ) from rfl]
        linarith
      · rw [hsum]
        linarith
    have hnm : (track_frame (GameTracker.init 0) 0 Spaceship.init
        [meteorAtOffset (50 - ε)]).near_misses =
        [mkNearMiss 0 Spaceship.init (meteorAtOffset (50 - ε))] := by
      rw [track_frame_near_misses, emittedEvents,
        show (GameTracker.init 0).near_misses = [] from rfl,
        show (GameTracker.init 0).start_time = (0:ℝ) from rfl]
      simp [hem]
    have hmap : (save_analytics (track_frame (GameTracker.init 0) 0 Spaceship.init
        [meteorAtOffset (50 - ε)]) 0).1.near_misses =
        (track_frame (GameTracker.init 0) 0 Spaceship.init
          [meteorAtOffset (50 - ε)]).near_misses.map
          (serializeEvent (track_frame (GameTracker.init 0) 0 Spaceship.init
            [meteorAtOffset (50 - ε)])) := rfl
    have hcrit : (track_frame (GameTracker.init 0) 0 Spaceship.init
        [meteorAtOffset (50 - ε)]).critical_threshold = (35:ℝ) :=
      ((track_frame_fields _ _ _ _).2.2).trans rfl
    have hdist : (mkNearMiss 0 Spaceship.init (meteorAtOffset (50 - ε))).distance
        = 50 - ε := hd
    have hsev : (serializeEvent (track_frame (GameTracker.init 0) 0 Spaceship.init
          [meteorAtOffset (50 - ε)])
        (mkNearMiss 0 Spaceship.init (meteorAtOffset (50 - ε)))).severity = "WARNING" := by
      show (if (mkNearMiss 0 Spaceship.init (meteorAtOffset (50 - ε))).distance <
          (track_frame (GameTracker.init 0) 0 Spaceship.init
            [meteorAtOffset (50 - ε)]).critical_threshold
        then "CRITICAL" else "WARNING") = "WARNING"
      rw [hdist, hcrit]
      exact if_neg (by linarith)
    rw [hmap, hnm]
    simp only [List.map_cons, List.map_nil]
    rw [hsev]
  · have hd : shipMeteorDist Spaceship.init (meteorAtOffset (50 + ε)) = 50 + ε :=
      dist_meteorAtOffset _ (by linarith)
    have hnot : ¬ emits (GameTracker.init 0) Spaceship.init (meteorAtOffset (50 + ε)) := by
      rw [emits, hd]
      rintro ⟨hlt, -⟩
      rw [show (GameTracker.init 0).danger_threshold = (50:ℝ) from rfl] at hlt
      linarith
    rw [track_frame_near_misses, emittedEvents,
      show (GameTracker.init 0).near_misses = [] from rfl]
    simp [hnot]
  · intro h35
    have hd : shipMeteorDist Spaceship.init (meteorAtOffset (35 - ε)) = 35 - ε :=
      dist_meteorAtOffset _ (by linarith)
    have hnot : ¬ emits (GameTracker.init 0) Spaceship.init (meteorAtOffset (35 - ε)) := by
      rw [emits, hd]
      rintro ⟨-, hgt⟩
      rw [hsum] at hgt
      linarith
    rw [track_frame_near_misses, emittedEvents,
      show (GameTracker.init 0).near_misses = [] from rfl]
    simp [hnot]

/-- C2 witness: the amended boundary behavior at the concrete value ε = 1. -/
theorem near_miss_boundary_amended_witness :
    ((save_analytics (track_frame (GameTracker.init 0) 0 Spaceship.init
        [meteorAtOffset (50 - 1)]) 0).1.near_misses.map SerializedNearMiss.severity
      = ["WARNING"])
    ∧ (track_frame (GameTracker.init 0) 0 Spaceship.init
        [meteorAtOffset (50 + 1)]).near_misses = []
    ∧ (track_frame (GameTracker.init 0) 0 Spaceship.init
        [meteorAtOffset (35 - 1)]).near_misses = [] := by
  obtain ⟨h1, h2, h3⟩ := near_miss_boundary_amended 1 (by norm_num) (by norm_num)
  exact ⟨h1, h2, h3 (by norm_num)⟩

/-- C3 counterexample: a meteor at distance exactly
`SPACESHIP_SIZE + METEOR_SIZE` (the collision radius sum, `35`) does NOT make
the collision scan of `main` fire, because the source tests
`distance < SPACESHIP_SIZE + METEOR_SIZE` strictly. -/
theorem collision_boundary_cex :
    collisionDetected Spaceship.init
      [meteorAtOffset (SPACESHIP_SIZE + METEOR_SIZE)] = False := by
  have hd : shipMeteorDist Spaceship.init (meteorAtOffset (SPACESHIP_SIZE + METEOR_SIZE))
      = SPACESHIP_SIZE + METEOR_SIZE :=
    dist_meteorAtOffset _ (by norm_num [SPACESHIP_SIZE, METEOR_SIZE])
  refine eq_false ?_
  rintro ⟨m, hm, hlt⟩
  rw [List.mem_singleton] at hm
  subst hm
  rw [hd] at hlt
  exact lt_irrefl _ hlt

/-- C3 (amended): the terminal collision status fires exactly on distances
strictly below the collision radius sum: a meteor at distance
`collision_radius_sum + ε` (any `ε ≥ 0`, so in particular exactly at the sum)
does not trigger it, any distance strictly below the sum does, and whenever the
collision scan fires during a tick the run's `running` flag becomes false. -/
theorem collision_boundary_amended (ε : ℝ) (hε : 0 ≤ ε) (d : ℝ) (hd0 : 0 ≤ d)
    (hd : d < SPACESHIP_SIZE + METEOR_SIZE) :
    ¬ collisionDetected Spaceship.init
        [meteorAtOffset (SPACESHIP_SIZE + METEOR_SIZE + ε)]
    ∧ collisionDetected Spaceship.init [meteorAtOffset d]
    ∧ ∀ (g : GameState) (spawn : Option Meteor) (now : ℝ),
        collisionDetected
            (avoid_meteors g.spaceship (updateMeteors (g.meteors ++ spawn.toList)))
            (updateMeteors (g.meteors ++ spawn.toList)) →
          (tick g spawn now).running = false := by
  have hsumpos : (0:ℝ) ≤ SPACESHIP_SIZE + METEOR_SIZE := by
    norm_num [SPACESHIP_SIZE, METEOR_SIZE]
  refine ⟨?_, ?_, ?_⟩
  · have hde : shipMeteorDist Spaceship.init
        (meteorAtOffset (SPACESHIP_SIZE + METEOR_SIZE + ε))
        = SPACESHIP_SIZE + METEOR_SIZE + ε :=
      dist_meteorAtOffset _ (by linarith)
    rintro ⟨m, hm, hlt⟩
    rw [List.mem_singleton] at hm
    subst hm
    rw [hde] at hlt
    linarith
  · exact ⟨meteorAtOffset d, List.mem_singleton_self _,
      by rw [dist_meteorAtOffset d hd0]; exact hd⟩
  · intro g spawn now hcol
    have hdec : decide (collisionDetected
        (avoid_meteors g.spaceship (updateMeteors (g.meteors ++ spawn.toList)))
        (updateMeteors (g.meteors ++ spawn.toList))) = true := decide_eq_true hcol
    simp [tick, hdec]

/-- C3 witness: the amended boundary at ε = 0 (distance exactly the collision
radius sum, no collision) and at the concrete distance 34 (collision). -/
theorem collision_boundary_amended_witness :
    ¬ collisionDetected Spaceship.init
        [meteorAtOffset (SPACESHIP_SIZE + METEOR_SIZE + 0)]
    ∧ collisionDetected Spaceship.init [meteorAtOffset 34] := by
  obtain ⟨h1, h2, -⟩ := collision_boundary_amended 0 le_rfl 34 (by norm_num)
    (by norm_num [SPACESHIP_SIZE, METEOR_SIZE])
  exact ⟨h1, h2⟩

/-! ### C4: avoidance and centering are mutually exclusive -/

theorem applyAvoidance_zero (v : ℝ × ℝ) : applyAvoidance v (0, 0) = v := by
  rw [applyAvoidance]
  simp [hypot_zero]

theorem applyAvoidance_delta_norm (v av : ℝ × ℝ) (h : av ≠ (0, 0)) :
    hypot ((applyAvoidance v av).1 - v.1) ((applyAvoidance v av).2 - v.2)
      = AVOIDANCE_STRENGTH := by
  have hne : ¬(av.1 = 0 ∧ av.2 = 0) := by
    rintro ⟨h1, h2⟩
    exact h (Prod.ext h1 h2)
  have hL : 0 < hypot av.1 av.2 := hypot_pos_of_ne _ _ hne
  have hch : applyAvoidance v av =
      (v.1 + av.1 / hypot av.1 av.2 * AVOIDANCE_STRENGTH,
       v.2 + av.2 / hypot av.1 av.2 * AVOIDANCE_STRENGTH) := by
    rw [applyAvoidance]
    exact if_pos hL
  rw [hch]
  simp only [add_sub_cancel_left]
  exact hypot_rescale av.1 av.2 AVOIDANCE_STRENGTH
    (by norm_num [AVOIDANCE_STRENGTH]) hL

/-- C4: during one Autopilot update the centering force is applied exactly when
no meteor lies within `DETECTION_RADIUS` at positive distance; when at least
one is in range, the avoidance branch is taken instead — unchanged velocity if
the summed per-threat unit vectors cancel to zero, otherwise an added impulse
of magnitude exactly `AVOIDANCE_STRENGTH` — and avoidance and centering are
never both applied in the same tick. -/
theorem centering_avoidance_exclusive (s : Spaceship) (ms : List Meteor) :
    ((threatScan s ms).2 = false ↔
        ∀ m ∈ ms, ¬(shipMeteorDist s m < DETECTION_RADIUS ∧ shipMeteorDist s m > 0))
    ∧ ((threatScan s ms).2 = false →
        preLimitVelocity s ms = applyCentering s (s.velocity_x, s.velocity_y))
    ∧ ((threatScan s ms).2 = true →
        preLimitVelocity s ms =
            applyAvoidance (s.velocity_x, s.velocity_y) (threatScan s ms).1
          ∧ ((threatScan s ms).1 = (0, 0) →
              preLimitVelocity s ms = (s.velocity_x, s.velocity_y))
          ∧ ((threatScan s ms).1 ≠ (0, 0) →
              hypot ((preLimitVelocity s ms).1 - s.velocity_x)
                  ((preLimitVelocity s ms).2 - s.velocity_y) = AVOIDANCE_STRENGTH)) := by
  refine ⟨?_, ?_, ?_⟩
  · have h := threatScan_snd_false_iff s ms
    unfold isThreat at h
    exact h
  · intro h
    have hscan := threatScan_of_no_threat s ms ((threatScan_snd_false_iff s ms).mp h)
    rw [preLimitVelocity, hscan]
    show applyCentering s (applyAvoidance (s.velocity_x, s.velocity_y) (0, 0)) = _
    rw [applyAvoidance_zero]
  · intro h
    have hpre : preLimitVelocity s ms =
        applyAvoidance (s.velocity_x, s.velocity_y) (threatScan s ms).1 := by
      rw [preLimitVelocity, h]
      exact if_pos rfl
    refine ⟨hpre, ?_, ?_⟩
    · intro hz
      rw [hpre, hz, applyAvoidance_zero]
    · intro hnz
      rw [hpre]
      exact applyAvoidance_delta_norm _ _ hnz

/-! ### C5: speed cap -/

theorem limitSpeed_of_over (v : ℝ × ℝ) (h : MAX_SPEED < hypot v.1 v.2) :
    limitSpeed v =
        (v.1 / hypot v.1 v.2 * MAX_SPEED, v.2 / hypot v.1 v.2 * MAX_SPEED)
      ∧ hypot (limitSpeed v).1 (limitSpeed v).2 = MAX_SPEED := by
  have hL : 0 < hypot v.1 v.2 := lt_trans (by norm_num [MAX_SPEED]) h
  have heq : limitSpeed v =
      (v.1 / hypot v.1 v.2 * MAX_SPEED, v.2 / hypot v.1 v.2 * MAX_SPEED) := by
    rw [limitSpeed]
    exact if_pos h
  refine ⟨heq, ?_⟩
  rw [heq]
  exact hypot_rescale v.1 v.2 MAX_SPEED (by norm_num [MAX_SPEED]) hL

theorem hypot_limitSpeed_le (v : ℝ × ℝ) :
    hypot (limitSpeed v).1 (limitSpeed v).2 ≤ MAX_SPEED := by
  by_cases h : MAX_SPEED < hypot v.1 v.2
  · exact le_of_eq (limitSpeed_of_over v h).2
  · have heq : limitSpeed v = v := by
      rw [limitSpeed]
      exact if_neg h
    rw [heq]
    exact not_lt.mp h

/-- C5: after the Autopilot update the craft's speed is at most `MAX_SPEED`,
and whenever the pre-limit velocity magnitude exceeds `MAX_SPEED` the final
velocity has magnitude exactly `MAX_SPEED` and is a positive scalar multiple of
the pre-limit velocity (direction preserved). -/
theorem speed_cap (s : Spaceship) (ms : List Meteor) :
    hypot (avoid_meteors s ms).velocity_x (avoid_meteors s ms).velocity_y ≤ MAX_SPEED
    ∧ (MAX_SPEED < hypot (preLimitVelocity s ms).1 (preLimitVelocity s ms).2 →
        hypot (avoid_meteors s ms).velocity_x (avoid_meteors s ms).velocity_y
            = MAX_SPEED
          ∧ ∃ c : ℝ, 0 < c ∧
              (avoid_meteors s ms).velocity_x = c * (preLimitVelocity s ms).1 ∧
              (avoid_meteors s ms).velocity_y = c * (preLimitVelocity s ms).2) := by
  have hx : (avoid_meteors s ms).velocity_x = (limitSpeed (preLimitVelocity s ms)).1 :=
    rfl
  have hy : (avoid_meteors s ms).velocity_y = (limitSpeed (preLimitVelocity s ms)).2 :=
    rfl
  constructor
  · rw [hx, hy]
    exact hypot_limitSpeed_le _
  · intro h
    obtain ⟨heq, hnorm⟩ := limitSpeed_of_over _ h
    have hL : 0 < hypot (preLimitVelocity s ms).1 (preLimitVelocity s ms).2 :=
      lt_trans (by norm_num [MAX_SPEED]) h
    refine ⟨by rw [hx, hy]; exact hnorm,
      MAX_SPEED / hypot (preLimitVelocity s ms).1 (preLimitVelocity s ms).2,
      div_pos (by norm_num [MAX_SPEED]) hL, ?_, ?_⟩
    · rw [hx, heq]
      show (preLimitVelocity s ms).1 / hypot (preLimitVelocity s ms).1
          (preLimitVelocity s ms).2 * MAX_SPEED = _
      ring
    · rw [hy, heq]
      show (preLimitVelocity s ms).2 / hypot (preLimitVelocity s ms).1
          (preLimitVelocity s ms).2 * MAX_SPEED = _
      ring

/-- A craft at the field center whose incoming velocity `(30, 40)` already has
magnitude 50, ten times `MAX_SPEED`. -/
noncomputable def fastShip : Spaceship :=
  { x := 400, y := 300, velocity_x := 30, velocity_y := 40, angle := 0 }

theorem hypot_30_40 : hypot (30:ℝ) 40 = 50 := by
  rw [hypot, show ((30:ℝ) ^ 2 + 40 ^ 2) = 50 ^ 2 by norm_num,
    Real.sqrt_sq (by norm_num)]

theorem preLimitVelocity_fastShip : preLimitVelocity fastShip [] = (30, 40) := by
  have hscan : threatScan fastShip [] = ((0, 0), false) := rfl
  rw [preLimitVelocity, hscan]
  simp only [Bool.false_eq_true, if_false]
  rw [applyAvoidance_zero, applyCentering]
  norm_num [WIDTH, HEIGHT, fastShip, hypot_zero]

/-- C5 witness: the rescale branch on a concrete over-speed craft — the update
brings the speed from 50 down to exactly `MAX_SPEED`. -/
theorem speed_cap_witness :
    hypot (avoid_meteors fastShip []).velocity_x (avoid_meteors fastShip []).velocity_y
      = MAX_SPEED := by
  have h : MAX_SPEED < hypot (preLimitVelocity fastShip []).1
      (preLimitVelocity fastShip []).2 := by
    rw [preLimitVelocity_fastShip]
    show MAX_SPEED < hypot 30 40
    rw [hypot_30_40]
    norm_num [MAX_SPEED]
  exact ((speed_cap fastShip []).2 h).1

/-- C6: after the Autopilot update each coordinate of the craft's position lies
in the closed interval from the craft's half-size to the field extent minus the
half-size on its axis. -/
theorem bounds_containment (s : Spaceship) (ms : List Meteor) :
    SPACESHIP_SIZE ≤ (avoid_meteors s ms).x
    ∧ (avoid_meteors s ms).x ≤ WIDTH - SPACESHIP_SIZE
    ∧ SPACESHIP_SIZE ≤ (avoid_meteors s ms).y
    ∧ (avoid_meteors s ms).y ≤ HEIGHT - SPACESHIP_SIZE := by
  have hx : (avoid_meteors s ms).x = max SPACESHIP_SIZE (min (WIDTH - SPACESHIP_SIZE)
      (s.x + (limitSpeed (preLimitVelocity s ms)).1)) := rfl
  have hy : (avoid_meteors s ms).y = max SPACESHIP_SIZE (min (HEIGHT - SPACESHIP_SIZE)
      (s.y + (limitSpeed (preLimitVelocity s ms)).2)) := rfl
  refine ⟨?_, ?_, ?_, ?_⟩
  · rw [hx]
    exact le_max_left _ _
  · rw [hx]
    exact max_le (by norm_num [SPACESHIP_SIZE, WIDTH]) (min_le_left _ _)
  · rw [hy]
    exact le_max_left _ _
  · rw [hy]
    exact max_le (by norm_num [SPACESHIP_SIZE, HEIGHT]) (min_le_left _ _)

/-- C7: building the analytics report is a pure function of the accumulated
tracker state: the call leaves the tracker unchanged, a second call with the
same frozen end-time snapshot and no intervening recording returns the
identical report, and the report's event count agrees with its ordered event
list. -/
theorem report_idempotent (t : GameTracker) (now : ℝ) :
    (save_analytics t now).2 = t
    ∧ (save_analytics (save_analytics t now).2 now).1 = (save_analytics t now).1
    ∧ (save_analytics t now).1.total_near_misses
        = (save_analytics t now).1.near_misses.length := by
  refine ⟨rfl, rfl, ?_⟩
  show t.near_misses.length = (t.near_misses.map (serializeEvent t)).length
  rw [List.length_map]

/-- C8: a meteor survives the per-tick lifecycle pass exactly when its advanced
position is inside the field bounds expanded by its radius on each axis; the
advance adds the velocity with no clamping; and every event the tick's
proximity scan appends belongs to a surviving (not off-screen) meteor — a
removed meteor appears in no subsequent scan. -/
theorem obstacle_culling (g : GameState) (spawn : Option Meteor) (now : ℝ) :
    (∀ m' : Meteor, m' ∈ (tick g spawn now).meteors ↔
        ((∃ m ∈ g.meteors ++ spawn.toList, m' = Meteor.update m) ∧ ¬ offscreen m'))
    ∧ (∀ m : Meteor, (Meteor.update m).x = m.x + m.velocity_x ∧
        (Meteor.update m).y = m.y + m.velocity_y)
    ∧ (∀ e ∈ (tick g spawn now).tracker.near_misses,
        e ∈ g.tracker.near_misses ∨
          ∃ m ∈ (tick g spawn now).meteors,
            ¬ offscreen m ∧ e.meteor_position = (m.x, m.y)) := by
  have htm : (tick g spawn now).meteors = updateMeteors (g.meteors ++ spawn.toList) :=
    rfl
  refine ⟨?_, fun m => ⟨rfl, rfl⟩, ?_⟩
  · intro m'
    rw [htm, updateMeteors, List.mem_filter, List.mem_map]
    simp only [decide_eq_true_eq]
    constructor
    · rintro ⟨⟨m, hm, hup⟩, hoff⟩
      exact ⟨⟨m, hm, hup.symm⟩, hoff⟩
    · rintro ⟨⟨m, hm, hup⟩, hoff⟩
      exact ⟨⟨m, hm, hup.symm⟩, hoff⟩
  · intro e he
    have htr : (tick g spawn now).tracker =
        track_frame g.tracker now
          (avoid_meteors g.spaceship (updateMeteors (g.meteors ++ spawn.toList)))
          (updateMeteors (g.meteors ++ spawn.toList)) := rfl
    rw [htr, track_frame_near_misses] at he
    rcases List.mem_append.mp he with h1 | h1
    · exact Or.inl h1
    · right
      rw [mem_emittedEvents] at h1
      obtain ⟨m, hm, -, rfl⟩ := h1
      have hm' := hm
      rw [updateMeteors, List.mem_filter] at hm'
      exact ⟨m, by rw [htm]; exact hm, of_decide_eq_true hm'.2, rfl⟩

/-- C9: no vector normalization inside the Autopilot update divides by zero:
a zero summed avoidance vector is skipped (velocity untouched), the centering
normalization on a craft exactly at the field center degenerates to adding the
zero vector, and a meteor at zero distance from the craft is skipped by the
threat scan. -/
theorem normalization_total (s : Spaceship) (ms : List Meteor) (m : Meteor)
    (v : ℝ × ℝ) :
    applyAvoidance v (0, 0) = v
    ∧ (s.x = WIDTH / 2 ∧ s.y = HEIGHT / 2 → applyCentering s v = v)
    ∧ (m.x = s.x ∧ m.y = s.y → threatScan s (m :: ms) = threatScan s ms) := by
  refine ⟨applyAvoidance_zero v, ?_, ?_⟩
  · rintro ⟨hx, hy⟩
    rw [applyCentering, hx, hy]
    simp [hypot_zero]
  · rintro ⟨hx, hy⟩
    have hdist : shipMeteorDist s m = 0 := by
      rw [shipMeteorDist, hx, hy]
      simp [hypot_zero]
    have hnt : ¬ isThreat s m := by
      simp [isThreat, hdist]
    rw [threatScan, threatScan, List.foldl_cons,
      threatStep_of_not_threat s _ m hnt]

/-! ### C10: no CRITICAL severity is ever serialized -/

/-- Tracker states reachable in a run: the `GameTracker()` constructed in
`main`, followed by any sequence of `track_frame` scans. -/
inductive ReachableTracker : GameTracker → Prop where
  | init (start_time : ℝ) : ReachableTracker (GameTracker.init start_time)
  | step (t : GameTracker) (now : ℝ) (s : Spaceship) (ms : List Meteor) :
      ReachableTracker t → ReachableTracker (track_frame t now s ms)

theorem reachable_invariant (t : GameTracker) (h : ReachableTracker t) :
    t.critical_threshold = 35 ∧
      ∀ e ∈ t.near_misses, SPACESHIP_SIZE + METEOR_SIZE < e.distance := by
  induction h with
  | init st => exact ⟨rfl, by simp [GameTracker.init]⟩
  | step t now s ms ht ih =>
    obtain ⟨hct, hev⟩ := ih
    refine ⟨((track_frame_fields t now s ms).2.2).trans hct, ?_⟩
    intro e he
    rw [track_frame_near_misses] at he
    rcases List.mem_append.mp he with h1 | h1
    · exact hev e h1
    · rw [mem_emittedEvents] at h1
      obtain ⟨m, hm, hem, rfl⟩ := h1
      exact hem.2

/-- C10: with the default constants every recorded `NearMissEvent` has
distance strictly above `SPACESHIP_SIZE + METEOR_SIZE = 35`, which equals the
critical threshold, so every serialized entry of the analytics report carries
severity `WARNING` — `CRITICAL` never appears in any report. -/
theorem no_critical_in_reports (t : GameTracker) (now : ℝ) (h : ReachableTracker t) :
    (∀ e ∈ t.near_misses, SPACESHIP_SIZE + METEOR_SIZE < e.distance)
    ∧ ((save_analytics t now).1.near_misses.all
        (fun ev => ev.severity == "WARNING")) = true := by
  obtain ⟨hct, hev⟩ := reachable_invariant t h
  refine ⟨hev, ?_⟩
  rw [List.all_eq_true]
  intro ev hmem
  have hrep : (save_analytics t now).1.near_misses
      = t.near_misses.map (serializeEvent t) := rfl
  rw [hrep, List.mem_map] at hmem
  obtain ⟨e, he, rfl⟩ := hmem
  have hne : ¬ e.distance < t.critical_threshold := by
    rw [hct]
    have h35 : SPACESHIP_SIZE + METEOR_SIZE = (35:ℝ) := by
      norm_num [SPACESHIP_SIZE, METEOR_SIZE]
    have hgt := hev e he
    rw [h35] at hgt
    linarith
  have hsev : (serializeEvent t e).severity = "WARNING" := by
    show (if e.distance < t.critical_threshold then "CRITICAL" else "WARNING")
      = "WARNING"
    exact if_neg hne
  show ((serializeEvent t e).severity == "WARNING") = true
  rw [hsev]
  exact beq_self_eq_true _

/-- A tracker reached after one scan that records one genuine near miss, at
distance 40. -/
noncomputable def exampleTracker : GameTracker :=
  track_frame (GameTracker.init 0) 0 Spaceship.init [meteorAtOffset 40]

/-- C10 witness: a concretely reached tracker whose report contains only
`WARNING` severities. -/
theorem no_critical_in_reports_witness :
    ((save_analytics exampleTracker 0).1.near_misses.all
      (fun ev => ev.severity == "WARNING")) = true :=
  (no_critical_in_reports exampleTracker 0
    (ReachableTracker.step (GameTracker.init 0) 0 Spaceship.init
      [meteorAtOffset 40] (ReachableTracker.init 0))).2

end AutopilotMeteor
